import Mathlib

set_option maxRecDepth 10000

/-!
# AgroVision — verification of the chat pipeline and frontend list logic

Shallow embedding of the AgroVision repository's chat intent pipeline
(Pattern Matcher, Entity Extractor, Context Builder, Response Generator
fallback, Chat Session Store) and of two frontend functions
(`handleSend` on the chat page, `filteredFarms` on the farms page),
together with theorems settling the specification's claims.

The backend service `services/chat_service.py` is not present in the
supplied sources (only its documentation, the SQL schema and the
TypeScript type declarations are), so the pipeline components are
modelled from the specification's own wording, as noted on each
definition. The frontend functions are translated directly from the
TypeScript sources.
-/

namespace AgroVision

/-! ## Character-level string helpers

Messages are processed case-insensitively by substring matching, the
shallow-embedding counterpart of the lowercase regex matching described
for the chat service. Strings are handled through their character lists.
-/

/-- Lowercase every character of a character list. -/
def lowerL (s : List Char) : List Char := s.map Char.toLower

/-- `startsWithL p s` holds when `p` is a prefix of `s` (character lists). -/
def startsWithL : List Char → List Char → Bool
  | [], _ => true
  | _ :: _, [] => false
  | a :: as, b :: bs => a == b && startsWithL as bs

/-- `containsSub p s` holds when `p` occurs as a contiguous substring of `s`. -/
def containsSub (p : List Char) : List Char → Bool
  | [] => startsWithL p []
  | c :: t => startsWithL p (c :: t) || containsSub p t

/-- Case-insensitive substring test on strings: does `s` contain `p`
(ignoring case)? -/
def ciContains (s p : String) : Bool :=
  containsSub (lowerL p.data) (lowerL s.data)

/-- Strip whitespace from both ends of a character list (the embedding
of JavaScript's `String.prototype.trim`). -/
def trimL (s : List Char) : List Char :=
  ((s.dropWhile Char.isWhitespace).reverse.dropWhile Char.isWhitespace).reverse

/-- `trim` on strings, via `trimL`. -/
def trimS (s : String) : String := ⟨trimL s.data⟩

/-! ## Intents and confidence levels

Modelled from the spec: the Pattern Matcher's fixed five-element intent
set and the three confidence levels (`chat_service.py`, absent from the
sources; spec §4.1 and the Phase 5 documentation).
-/

inductive Intent where
  | health_check
  | recommendation
  | problem_diagnosis
  | general_info
  | weather
  deriving DecidableEq, Repr

inductive Confidence where
  | high
  | medium
  | low
  deriving DecidableEq, Repr

/-- The five intents, in the fixed tie-break priority order of spec §4.1
(most actionable first). -/
def intentPriority : List Intent :=
  [.health_check, .problem_diagnosis, .recommendation, .weather, .general_info]

/-! ## Pattern Matcher -/

/-- Modelled from the spec: the ordered mapping intent → list of patterns
(21 total across 5 intents) of `chat_service.py`, absent from the sources.
The spec does not list the individual regexes, so a representative table of
21 lowercase keyword patterns is used, consistent with the patterns the
spec and Phase 5 documentation do mention ("yellowing", "what should i do",
crop-health phrasings, weather phrasings); matching a pattern means
containing it as a case-insensitive substring. -/
def intentPatterns : Intent → List (List Char)
  | .health_check =>
      ["how is my".data, "health".data, "crop doing".data,
       "condition".data, "status".data]
  | .problem_diagnosis =>
      ["yellowing".data, "what should i do".data, "problem".data,
       "disease".data, "wilting".data]
  | .recommendation =>
      ["recommend".data, "what crops should".data, "suggest".data,
       "advice".data]
  | .weather =>
      ["weather".data, "rain".data, "forecast".data, "temperature".data]
  | .general_info =>
      ["help".data, "what is".data, "explain".data]

/-- Number of patterns of intent `i` matched by the (already lowercased)
message `m`. -/
def matchCount (m : List Char) (i : Intent) : Nat :=
  (intentPatterns i).countP (fun p => containsSub p m)

/-- Total number of pattern matches across all five intents. -/
def totalMatches (m : List Char) : Nat :=
  (intentPriority.map (matchCount m)).sum

/-- Modelled from the spec: the winning intent together with its match
count. The intent with the greatest number of matching patterns wins;
ties are broken by the fixed priority order health_check >
problem_diagnosis > recommendation > weather > general_info (spec §4.1).
-/
def pickBest (m : List Char) : Intent × Nat :=
  let ch := matchCount m .health_check
  let cp := matchCount m .problem_diagnosis
  let cr := matchCount m .recommendation
  let cw := matchCount m .weather
  let cg := matchCount m .general_info
  if ch ≥ cp ∧ ch ≥ cr ∧ ch ≥ cw ∧ ch ≥ cg then (.health_check, ch)
  else if cp ≥ cr ∧ cp ≥ cw ∧ cp ≥ cg then (.problem_diagnosis, cp)
  else if cr ≥ cw ∧ cr ≥ cg then (.recommendation, cr)
  else if cw ≥ cg then (.weather, cw)
  else (.general_info, cg)

/-- Modelled from the spec: intent detection of `chat_service.py` (absent
from the sources; spec §4.1). Pure and total: zero matches anywhere gives
(general_info, low); otherwise the winning intent's match count maps to
confidence medium (exactly one) or high (two or more). -/
def detect_intent (msg : String) : Intent × Confidence :=
  let m := lowerL msg.data
  let b := pickBest m
  if b.2 = 0 then (.general_info, .low)
  else (b.1, if b.2 = 1 then .medium else .high)

/-! ## Entity Extractor -/

/-- Modelled from the spec: the fixed crop vocabulary of the Entity
Extractor in `chat_service.py` (absent from the sources; spec §4.2):
wheat, rice, corn, cotton — case-insensitive substring match, first
match wins. -/
def cropVocab : List String := ["wheat", "rice", "corn", "cotton"]

/-- Modelled from the spec: the fixed date-reference vocabulary of the
Entity Extractor (spec §4.2), each term mapped to a relative-offset
token. -/
def dateVocab : List (String × String) :=
  [("yesterday", "-1d"), ("today", "+0d"), ("last week", "-7d")]

/-- Modelled from the spec: entity extraction of `chat_service.py`
(absent from the sources; spec §4.2). Returns a mapping entity-name →
value; a key is simply absent when its entity has no match; the function
is total (never throws). -/
def extract_entities (msg : String) : List (String × String) :=
  let m := lowerL msg.data
  let cropPart :=
    match cropVocab.find? (fun c => containsSub c.data m) with
    | some c => [("crop_type", c)]
    | none => []
  let datePart :=
    match dateVocab.find? (fun d => containsSub d.1.data m) with
    | some d => [("date_reference", d.2)]
    | none => []
  cropPart ++ datePart

/-! ## Context Builder -/

/-- Farm metadata section of the context (spec §3, §4.3). -/
structure FarmInfo where
  id : String
  crop_type : String
  deriving DecidableEq, Repr

/-- Latest satellite-analysis section of the context (spec §3:
`{ farm_id, ndvi, evi, savi, health_score, issues[] }`; numeric indices
kept as scaled integers, opaque to the chat core). -/
structure SatInfo where
  ndvi_milli : Int
  evi_milli : Int
  savi_milli : Int
  health_score : Nat
  issues : List String
  deriving DecidableEq, Repr

/-- Current-weather section of the context (temperature in °C, humidity
in %, rainfall in mm — spec §4.3). -/
structure WeatherInfo where
  temperature : Int
  humidity : Nat
  rainfall : Nat
  deriving DecidableEq, Repr

/-- Historical-trend section of the context: last readings plus a trend
direction (spec §4.3). -/
structure TrendInfo where
  readings : List Int
  direction : String
  deriving DecidableEq, Repr

/-- The ephemeral per-request context bundle (spec §3): each section is
optional, reflecting the "section may be absent" contract of §4.3. -/
structure ChatContext where
  farm_id : Option String
  farm : Option FarmInfo
  satellite : Option SatInfo
  weather : Option WeatherInfo
  forecast : Option (List WeatherInfo)
  trend : Option TrendInfo
  deriving DecidableEq, Repr

/-- Modelled from the spec: context building of `chat_service.py` (absent
from the sources; spec §4.3). Each collaborator's result arrives as an
`Except`; a failure in any one source degrades that section to `none`
(farm lookup failure proceeds with only the raw farm_id) and never fails
the whole build. Only the `weather` intent eagerly includes the 7-day
forecast. -/
def build_context (farm_id : Option String) (intent : Intent)
    (farmRes : Except String FarmInfo) (satRes : Except String SatInfo)
    (weatherRes : Except String WeatherInfo)
    (forecastRes : Except String (List WeatherInfo))
    (trendRes : Except String TrendInfo) : ChatContext :=
  { farm_id := farm_id
    farm := farmRes.toOption
    satellite := satRes.toOption
    weather := weatherRes.toOption
    forecast := if intent = .weather then forecastRes.toOption else none
    trend := trendRes.toOption }

/-! ## Response Generator (rule-based fallback path) -/

/-- Modelled from the spec: the health_check fallback template of the
top tier (health_score ≥ 75) of `chat_service.py` (spec §4.4, §8). -/
def healthHighText (score : Nat) : String :=
  "Great news! Your crop health score is " ++ toString score ++
    " out of 100. Your crop is doing well, keep up the current care routine."

/-- Modelled from the spec: the health_check fallback template of the
middle tier (50 ≤ health_score < 75). -/
def healthMidText (score : Nat) : String :=
  "Your crop health score is " ++ toString score ++
    " out of 100. There is room for improvement, monitor irrigation and nutrients closely."

/-- Modelled from the spec: the health_check fallback template of the
bottom tier (health_score < 50). -/
def healthLowText (score : Nat) : String :=
  "Attention needed: your crop health score is " ++ toString score ++
    " out of 100. Immediate action is recommended to address crop stress."

/-- Modelled from the spec: the per-intent deterministic template bank of
the rule-based fallback in `chat_service.py` (absent from the sources;
spec §4.4): health_check buckets health_score into the ≥75 / ≥50 / <50
tiers, problem_diagnosis maps the symptom keyword "yellowing" to nitrogen
deficiency, recommendation keys on detected issues, weather gives
temperature-based advice, and a missing parameter is replaced by a
neutral default phrase, never a crash or an empty string. -/
def fallbackText (intent : Intent) (msg : String) (ctx : ChatContext) : String :=
  match intent with
  | .health_check =>
    match ctx.satellite with
    | some s =>
      if s.health_score ≥ 75 then healthHighText s.health_score
      else if s.health_score ≥ 50 then healthMidText s.health_score
      else healthLowText s.health_score
    | none =>
      "I could not retrieve your latest crop health data. Please run a fresh satellite analysis and try again."
  | .problem_diagnosis =>
    if ciContains msg "yellowing" then
      "Yellowing leaves usually indicate nitrogen deficiency. Consider applying a nitrogen-rich fertilizer such as urea and check soil moisture."
    else
      "Please describe the symptoms you observe (leaf colour, spots, wilting) so I can suggest a probable cause."
  | .recommendation =>
    match ctx.satellite with
    | some s =>
      match s.issues with
      | issue :: _ =>
        "Based on the detected issue (" ++ issue ++
          "), I recommend targeted treatment and close monitoring this week."
      | [] =>
        "Your farm shows no detected issues. Continue the regular irrigation and nutrition schedule."
    | none =>
      "I recommend a fresh satellite analysis to base advice on current field conditions."
  | .weather =>
    match ctx.weather with
    | some w =>
      if w.temperature ≥ 35 then
        "High temperature of " ++ toString w.temperature ++
          " degrees C expected. Irrigate in the early morning or evening to reduce heat stress."
      else
        "Current temperature is " ++ toString w.temperature ++
          " degrees C. Conditions look suitable for regular field operations."
    | none => "Weather data is currently unavailable. Please check again shortly."
  | .general_info =>
    "I can help you with crop health checks, recommendations, problem diagnosis and weather guidance. Ask me about your farm!"

/-- Modelled from the spec: the static per-intent suggestion bank of
`chat_service.py` (spec §4.4); each intent carries between 1 and 5
suggestions (the API test transcript shows 5 for health_check). -/
def suggestionBank (intent : Intent) : List String :=
  match intent with
  | .health_check =>
    ["Continue regular irrigation schedule", "Monitor for any pest activity",
     "Check weather forecast for next week",
     "Consider nutrient testing if growth slows",
     "Document crop progress with photos"]
  | .problem_diagnosis =>
    ["Apply nitrogen-rich fertilizer if leaves are yellowing",
     "Inspect leaves for pest damage", "Test soil moisture levels"]
  | .recommendation =>
    ["Review the latest satellite analysis", "Plan irrigation for this week",
     "Schedule a soil nutrient test"]
  | .weather =>
    ["Check the 7-day forecast", "Plan irrigation around expected rainfall"]
  | .general_info =>
    ["Ask about your crop health", "Request recommendations for your farm",
     "Ask about the weather at your farm"]

/-- Modelled from the spec: the fallback path of the Response Generator
(spec §4.4), used when the LLM call errors, times out or is disabled.
Total: it returns the per-intent template text plus the per-intent
suggestion bank. -/
def fallback_response (intent : Intent) (msg : String) (ctx : ChatContext) :
    String × List String :=
  (fallbackText intent msg ctx, suggestionBank intent)

/-! ## Chat Session Store -/

/-- A persisted chat turn. Field shape follows the TypeScript
`ChatMessage` declaration (`src/types/index.ts`) and the `chat_history`
table (`supabase_schema.sql`): `farm_id` is optional, and `intent` /
`confidence` are nullable columns, hence `Option` here — the pipeline
invariant is that they are in fact always populated. -/
structure ChatMessage where
  id : Nat
  user_id : String
  farm_id : Option String
  message : String
  response_text : String
  suggestions : List String
  intent : Option Intent
  entities : List (String × String)
  confidence : Option Confidence
  timestamp : Nat
  deriving DecidableEq, Repr

/-- Modelled from the spec: the append-only Chat Session Store of
`chat_service.py` (absent from the sources; spec §4.5). Messages are
kept oldest-first; `counter` generates ids and model timestamps
(monotonic-enough for ordering, spec §4.5). -/
structure ChatStore where
  msgs : List ChatMessage
  counter : Nat
  deriving DecidableEq, Repr

/-- The empty store. -/
def ChatStore.empty : ChatStore := { msgs := [], counter := 0 }

/-- Modelled from the spec: `save(turn)` appends a ChatMessage with a
generated id and timestamp and never overwrites prior entries
(spec §4.5). -/
def save_chat (st : ChatStore) (user_id : String) (farm_id : Option String)
    (message response_text : String) (suggestions : List String)
    (intent : Option Intent) (entities : List (String × String))
    (confidence : Option Confidence) : ChatStore :=
  { msgs := st.msgs ++
      [{ id := st.counter, user_id := user_id, farm_id := farm_id,
         message := message, response_text := response_text,
         suggestions := suggestions, intent := intent,
         entities := entities, confidence := confidence,
         timestamp := st.counter }]
    counter := st.counter + 1 }

/-- Modelled from the spec: `history(farm_id, limit)` (spec §4.5 and
`GET /api/chat/history/farm_id`) — the most recent `limit` messages for
that farm, newest first; a stateless read returning an empty sequence
(not an error) when no history exists. -/
def get_chat_history (st : ChatStore) (fid : String) (lim : Nat) :
    List ChatMessage :=
  ((st.msgs.filter (fun m => m.farm_id == some fid)).reverse).take lim

/-! ## A full chat turn

Modelled from the spec: the single-turn state machine RECEIVED →
CLASSIFIED → CONTEXT_BUILT → (LLM | FALLBACK) → RESPONDED → PERSISTED
(spec §4.4/§4.5 and `routers/chat.py`, absent from the sources). The LLM
call's outcome arrives as an `Option`: `none` models an error, timeout
or disabled LLM path and routes the turn through the rule-based
fallback. -/
def process_turn (st : ChatStore) (user_id : String) (farm_id : Option String)
    (msg : String) (farmRes : Except String FarmInfo)
    (satRes : Except String SatInfo) (weatherRes : Except String WeatherInfo)
    (forecastRes : Except String (List WeatherInfo))
    (trendRes : Except String TrendInfo)
    (llmRes : Option (String × List String)) : ChatStore :=
  let (intent, conf) := detect_intent msg
  let entities := extract_entities msg
  let ctx := build_context farm_id intent farmRes satRes weatherRes
    forecastRes trendRes
  let (text, sugg) :=
    match llmRes with
    | some r => r
    | none => fallback_response intent msg ctx
  save_chat st user_id farm_id msg text sugg (some intent) entities (some conf)

/-! ## Frontend: chat page `handleSend`

Translated from `src/app/(dashboard)/chat/page.tsx` of
`frontend/agrovision-app`. Only the synchronous part of `handleSend` is
embedded (up to issuing the network request); the JavaScript timestamp
`Date.now()` is an explicit `now` parameter.
-/

inductive Role where
  | user
  | assistant
  deriving DecidableEq, Repr

/-- The chat page's local `Message` interface (`page.tsx`). -/
structure UiMessage where
  id : Nat
  role : Role
  content : String
  timestamp : Nat
  suggestions : Option (List String)
  deriving DecidableEq, Repr

/-- The component state touched by `handleSend`: `messages`, `input`,
`isLoading`, `selectedLanguage` (`page.tsx`). -/
structure ChatPageState where
  messages : List UiMessage
  input : String
  isLoading : Bool
  selectedLanguage : String
  deriving DecidableEq, Repr

/-- The body of the `POST /api/chat` request issued by `handleSend`
(`page.tsx`): `language` is omitted when the selected language is
English. -/
structure ChatRequest where
  user_id : String
  message : String
  language : Option String
  deriving DecidableEq, Repr

/-- The hardcoded `USER_ID` constant of `page.tsx`. -/
def USER_ID : String := "00000000-0000-0000-0000-000000000001"

/-- `const content = message || input.trim()` — with JavaScript `||`
semantics an absent or empty `message` argument falls through to the
trimmed input field. -/
def effectiveContent (arg : Option String) (st : ChatPageState) : String :=
  match arg with
  | some m => if m = "" then trimS st.input else m
  | none => trimS st.input

/-- `handleSend` from `page.tsx`: guard on empty effective content or an
in-flight request, else append the user message, clear the input, set
`isLoading` and issue the chat request. Returns the new component state
and the request issued, if any. -/
def handleSend (now : Nat) (arg : Option String) (st : ChatPageState) :
    ChatPageState × Option ChatRequest :=
  let content := effectiveContent arg st
  if content = "" ∨ st.isLoading then (st, none)
  else
    ({ st with
        messages := st.messages ++
          [{ id := now, role := .user, content := content,
             timestamp := now, suggestions := none }]
        input := ""
        isLoading := true },
     some { user_id := USER_ID, message := content,
            language := if st.selectedLanguage ≠ "en"
              then some st.selectedLanguage else none })

/-! ## Frontend: farms page `filteredFarms`

Translated from `app/farms/page.tsx` of `frontend/agrovision-dashboard`
(the `filteredFarms` filter) and the dashboard's `Farm` interface from
its `types` module.
-/

/-- The dashboard's `Farm` interface. The numeric fields are irrelevant
to the search filter and are embedded as integers. -/
structure FarmRecord where
  id : String
  user_id : String
  name : String
  crop_type : String
  lat : Int
  lng : Int
  area : Int
  created_at : String
  updated_at : String
  deriving DecidableEq, Repr

/-- `filteredFarms` from `app/farms/page.tsx`:
`farms.filter(farm => farm.name.toLowerCase().includes(q.toLowerCase())
|| farm.crop_type.toLowerCase().includes(q.toLowerCase()))`. -/
def filteredFarms (farms : List FarmRecord) (searchQuery : String) :
    List FarmRecord :=
  farms.filter (fun farm =>
    ciContains farm.name searchQuery || ciContains farm.crop_type searchQuery)

/-! ## Concrete sample data for witnesses -/

/-- A satellite analysis reporting health_score 85, as in the spec's
health-tier scenario. -/
def sampleSat85 : SatInfo :=
  { ndvi_milli := 720, evi_milli := 500, savi_milli := 600,
    health_score := 85, issues := [] }

/-- A context whose satellite section is `sampleSat85` and whose other
sections are absent. -/
def sampleCtx85 : ChatContext :=
  { farm_id := some "f1", farm := none, satellite := some sampleSat85,
    weather := none, forecast := none, trend := none }

/-- Two concrete farm records, mirroring the repository's seed data
(`supabase_schema.sql`). -/
def sampleFarms : List FarmRecord :=
  [{ id := "farm-1", user_id := "u1", name := "Green Valley Farm",
     crop_type := "wheat", lat := 28, lng := 77, area := 5,
     created_at := "2025-01-01", updated_at := "2025-01-01" },
   { id := "farm-3", user_id := "u1", name := "River Rice Plantation",
     crop_type := "rice", lat := 17, lng := 78, area := 12,
     created_at := "2025-01-01", updated_at := "2025-01-01" }]

/-- The store after three full turns for farm "f1" on the empty store,
in order "one", "two", "three" (the spec's three-saved-turns
scenario). -/
def threeTurns : ChatStore :=
  process_turn
    (process_turn
      (process_turn ChatStore.empty "u1" (some "f1") "one"
        (Except.error "e") (Except.error "e") (Except.error "e")
        (Except.error "e") (Except.error "e") (some ("r1", ["s1"])))
      "u1" (some "f1") "two" (Except.error "e") (Except.error "e")
      (Except.error "e") (Except.error "e") (Except.error "e")
      (some ("r2", ["s2"])))
    "u1" (some "f1") "three" (Except.error "e") (Except.error "e")
    (Except.error "e") (Except.error "e") (Except.error "e")
    (some ("r3", ["s3"]))

/-! # Theorems -/

/-! ## Helper lemmas -/

theorem startsWithL_nil (s : List Char) : startsWithL [] s = true := by
  cases s <;> rfl

theorem containsSub_nil (s : List Char) : containsSub [] s = true := by
  cases s with
  | nil => rfl
  | cons c t => simp [containsSub, startsWithL_nil]

theorem pickBest_count (m : List Char) :
    (pickBest m).2 = matchCount m (pickBest m).1 := by
  unfold pickBest
  dsimp only
  split_ifs <;> rfl

theorem pickBest_ge_general (m : List Char) :
    matchCount m .general_info ≤ (pickBest m).2 := by
  unfold pickBest
  dsimp only
  split_ifs <;> omega

theorem length_append_left (s t : String) (h : 0 < s.length) :
    0 < (s ++ t).length := by
  have := String.length_append s t
  omega

/-! ## Pattern Matcher claims -/

/-- C1: for every input string the Pattern Matcher returns exactly one
intent drawn from the fixed five-element set together with a confidence
level (it is a total function, so never null and never a sixth value),
and an input matching zero of the 21 patterns yields intent =
general_info with confidence = low. -/
theorem pattern_matcher_total (msg : String) :
    (intentPriority.map fun i => (intentPatterns i).length).sum = 21 ∧
    (detect_intent msg).1 ∈ intentPriority ∧
      (totalMatches (lowerL msg.data) = 0 →
        detect_intent msg = (.general_info, .low)) := by
  refine ⟨by decide, ?_, ?_⟩
  · cases h : (detect_intent msg).1 <;> simp [intentPriority]
  · intro h
    have hb := pickBest_count (lowerL msg.data)
    have h0 : (pickBest (lowerL msg.data)).2 = 0 := by
      simp only [totalMatches, intentPriority, List.map, List.sum_cons,
        List.sum_nil] at h
      cases hfst : (pickBest (lowerL msg.data)).1 <;> rw [hfst] at hb <;> omega
    unfold detect_intent
    dsimp only
    rw [if_pos h0]

/-- Witness for C1 at the spec's own scenario input "hello": it matches
zero patterns and classifies as (general_info, low). -/
theorem pattern_matcher_total_witness :
    totalMatches (lowerL "hello".data) = 0 ∧
      detect_intent "hello" = (.general_info, .low) :=
  ⟨by decide, (pattern_matcher_total "hello").2.2 (by decide)⟩

/-- C4: the Pattern Matcher's confidence is a function of the number of
patterns matched by the winning intent — exactly one matching pattern
gives confidence = medium, two or more give confidence = high. -/
theorem pattern_matcher_confidence (msg : String) :
    (matchCount (lowerL msg.data) (detect_intent msg).1 = 1 →
      (detect_intent msg).2 = .medium) ∧
    (2 ≤ matchCount (lowerL msg.data) (detect_intent msg).1 →
      (detect_intent msg).2 = .high) := by
  have hpc := pickBest_count (lowerL msg.data)
  have hpg := pickBest_ge_general (lowerL msg.data)
  by_cases h0 : (pickBest (lowerL msg.data)).2 = 0
  · have hd : detect_intent msg = (.general_info, .low) := by
      unfold detect_intent
      dsimp only
      rw [if_pos h0]
    rw [hd]
    dsimp only
    exact ⟨fun h1 => absurd h1 (by omega), fun h2 => absurd h2 (by omega)⟩
  · have hd : detect_intent msg =
        ((pickBest (lowerL msg.data)).1,
          if (pickBest (lowerL msg.data)).2 = 1 then .medium else .high) := by
      unfold detect_intent
      dsimp only
      rw [if_neg h0]
    rw [hd]
    dsimp only
    constructor
    · intro h1
      rw [if_pos (by omega)]
    · intro h2
      rw [if_neg (by omega)]

/-- Witness for C4: "please suggest" matches exactly one pattern of its
winning intent (recommendation) and gets confidence medium; "how is my
crop doing" matches two health_check patterns and gets confidence
high. -/
theorem pattern_matcher_confidence_witness :
    (matchCount (lowerL "please suggest".data)
        (detect_intent "please suggest").1 = 1 ∧
      (detect_intent "please suggest").2 = .medium) ∧
    (2 ≤ matchCount (lowerL "how is my crop doing".data)
        (detect_intent "how is my crop doing").1 ∧
      (detect_intent "how is my crop doing").2 = .high) :=
  ⟨⟨by decide, (pattern_matcher_confidence "please suggest").1 (by decide)⟩,
   ⟨by decide, (pattern_matcher_confidence "how is my crop doing").2 (by decide)⟩⟩

/-! ## Entity Extractor claim -/

/-- C7: the Entity Extractor is total (a pure function, it never
throws); an input containing a crop-vocabulary term as a
case-insensitive substring yields a map binding `crop_type` to that term
with first-match-wins vocabulary order (wheat, rice, corn, cotton), and
when no vocabulary term occurs the `crop_type` key is absent. -/
theorem entity_extractor_crop (msg : String) :
    (containsSub "wheat".data (lowerL msg.data) = true →
      (extract_entities msg).lookup "crop_type" = some "wheat") ∧
    (containsSub "wheat".data (lowerL msg.data) = false →
      containsSub "rice".data (lowerL msg.data) = true →
      (extract_entities msg).lookup "crop_type" = some "rice") ∧
    (containsSub "wheat".data (lowerL msg.data) = false →
      containsSub "rice".data (lowerL msg.data) = false →
      containsSub "corn".data (lowerL msg.data) = true →
      (extract_entities msg).lookup "crop_type" = some "corn") ∧
    (containsSub "wheat".data (lowerL msg.data) = false →
      containsSub "rice".data (lowerL msg.data) = false →
      containsSub "corn".data (lowerL msg.data) = false →
      containsSub "cotton".data (lowerL msg.data) = true →
      (extract_entities msg).lookup "crop_type" = some "cotton") ∧
    ((∀ c ∈ cropVocab, containsSub c.data (lowerL msg.data) = false) →
      (extract_entities msg).lookup "crop_type" = none) := by
  refine ⟨?_, ?_, ?_, ?_, ?_⟩
  · intro h1
    simp [extract_entities, cropVocab, List.find?, h1, List.lookup]
  · intro h1 h2
    simp [extract_entities, cropVocab, List.find?, h1, h2, List.lookup]
  · intro h1 h2 h3
    simp [extract_entities, cropVocab, List.find?, h1, h2, h3, List.lookup]
  · intro h1 h2 h3 h4
    simp [extract_entities, cropVocab, List.find?, h1, h2, h3, h4, List.lookup]
  · intro h
    have h1 := h "wheat" (by simp [cropVocab])
    have h2 := h "rice" (by simp [cropVocab])
    have h3 := h "corn" (by simp [cropVocab])
    have h4 := h "cotton" (by simp [cropVocab])
    have hcrop : cropVocab.find?
        (fun c => containsSub c.data (lowerL msg.data)) = none := by
      simp [cropVocab, List.find?, h1, h2, h3, h4]
    unfold extract_entities
    dsimp only
    rw [hcrop]
    cases hd : dateVocab.find?
        (fun d => containsSub d.1.data (lowerL msg.data)) with
    | none => rfl
    | some d => simp [List.lookup]

/-- Witness for C7: "My RICE crop" binds crop_type to "rice"; "hello"
binds nothing. -/
theorem entity_extractor_crop_witness :
    (containsSub "wheat".data (lowerL "My RICE crop".data) = false ∧
      containsSub "rice".data (lowerL "My RICE crop".data) = true ∧
      (extract_entities "My RICE crop").lookup "crop_type" = some "rice") ∧
    (extract_entities "hello").lookup "crop_type" = none :=
  ⟨⟨by decide, by decide,
    (entity_extractor_crop "My RICE crop").2.1 (by decide) (by decide)⟩,
   (entity_extractor_crop "hello").2.2.2.2 (by decide)⟩

/-! ## Response Generator fallback claims -/

theorem healthHighText_pos (n : Nat) : 0 < (healthHighText n).length := by
  unfold healthHighText
  apply length_append_left
  apply length_append_left
  decide

theorem healthMidText_pos (n : Nat) : 0 < (healthMidText n).length := by
  unfold healthMidText
  apply length_append_left
  apply length_append_left
  decide

theorem healthLowText_pos (n : Nat) : 0 < (healthLowText n).length := by
  unfold healthLowText
  apply length_append_left
  apply length_append_left
  decide

/-- C3: for every intent and every context — including contexts with
missing sections — the fallback path returns a non-empty response text
and between 1 and 5 suggestions; being a total function it never
throws. -/
theorem fallback_total (intent : Intent) (msg : String) (ctx : ChatContext) :
    0 < (fallback_response intent msg ctx).1.length ∧
      1 ≤ (fallback_response intent msg ctx).2.length ∧
      (fallback_response intent msg ctx).2.length ≤ 5 := by
  refine ⟨?_, ?_, ?_⟩
  · show 0 < (fallbackText intent msg ctx).length
    unfold fallbackText
    cases intent <;> dsimp only
    · cases hs : ctx.satellite with
      | none => decide
      | some s =>
        dsimp only
        split_ifs
        · exact healthHighText_pos _
        · exact healthMidText_pos _
        · exact healthLowText_pos _
    · cases hs : ctx.satellite with
      | none => decide
      | some s =>
        dsimp only
        cases hi : s.issues with
        | nil => decide
        | cons issue rest =>
          dsimp only
          apply length_append_left
          apply length_append_left
          decide
    · split_ifs <;> decide
    · decide
    · cases hw : ctx.weather with
      | none => decide
      | some w =>
        dsimp only
        split_ifs
        · apply length_append_left
          apply length_append_left
          decide
        · apply length_append_left
          apply length_append_left
          decide
  · show 1 ≤ (suggestionBank intent).length
    cases intent <;> decide
  · show (suggestionBank intent).length ≤ 5
    cases intent <;> decide

/-- C8: on the fallback path with intent health_check the response is
selected by bucketing health_score into the three mutually exclusive
tiers ≥75, 50–74 and <50, each with its own template; a context with
health_score = 85 produces the 75+ tier text, distinct from the other
two tiers' texts. -/
theorem health_check_tiers (msg : String) (ctx : ChatContext) (s : SatInfo) :
    ctx.satellite = some s →
      ((75 ≤ s.health_score →
          (fallback_response .health_check msg ctx).1 =
            healthHighText s.health_score) ∧
       (50 ≤ s.health_score → s.health_score < 75 →
          (fallback_response .health_check msg ctx).1 =
            healthMidText s.health_score) ∧
       (s.health_score < 50 →
          (fallback_response .health_check msg ctx).1 =
            healthLowText s.health_score)) ∧
      (s.health_score = 85 →
        (fallback_response .health_check msg ctx).1 = healthHighText 85 ∧
          healthHighText 85 ≠ healthMidText 85 ∧
          healthHighText 85 ≠ healthLowText 85 ∧
          healthMidText 85 ≠ healthLowText 85) := by
  intro hsat
  have hf : (fallback_response .health_check msg ctx).1 =
      if s.health_score ≥ 75 then healthHighText s.health_score
      else if s.health_score ≥ 50 then healthMidText s.health_score
      else healthLowText s.health_score := by
    show fallbackText .health_check msg ctx = _
    unfold fallbackText
    rw [hsat]
  refine ⟨⟨?_, ?_, ?_⟩, ?_⟩
  · intro h
    rw [hf, if_pos (by omega)]
  · intro h h'
    rw [hf, if_neg (by omega), if_pos (by omega)]
  · intro h
    rw [hf, if_neg (by omega), if_neg (by omega)]
  · intro h
    refine ⟨?_, by decide, by decide, by decide⟩
    rw [hf, if_pos (by omega), h]

/-- Witness for C8: the concrete context `sampleCtx85`, whose satellite
section reports health_score = 85, produces the 75+ tier text. -/
theorem health_check_tiers_witness :
    sampleCtx85.satellite = some sampleSat85 ∧
      sampleSat85.health_score = 85 ∧
      (fallback_response .health_check "how is my crop" sampleCtx85).1 =
        healthHighText 85 :=
  ⟨rfl, rfl,
    ((health_check_tiers "how is my crop" sampleCtx85 sampleSat85 rfl).2 rfl).1⟩

/-! ## Context Builder claim -/

/-- C5: when the weather collaborator throws during context building,
the Context Builder still returns a context object in which only the
weather section is absent — farm and trend sections are present whenever
their own fetches succeeded, and no individual failure propagates (the
builder is a total function). -/
theorem context_partial_failure (fid : Option String) (intent : Intent)
    (farmRes : Except String FarmInfo) (satRes : Except String SatInfo)
    (e : String) (forecastRes : Except String (List WeatherInfo))
    (trendRes : Except String TrendInfo) :
    (build_context fid intent farmRes satRes (Except.error e) forecastRes
        trendRes).weather = none ∧
    (∀ f, farmRes = Except.ok f →
      (build_context fid intent farmRes satRes (Except.error e) forecastRes
        trendRes).farm = some f) ∧
    (∀ t, trendRes = Except.ok t →
      (build_context fid intent farmRes satRes (Except.error e) forecastRes
        trendRes).trend = some t) ∧
    (build_context fid intent farmRes satRes (Except.error e) forecastRes
        trendRes).farm_id = fid := by
  refine ⟨rfl, ?_, ?_, rfl⟩
  · intro f hf
    simp [build_context, hf, Except.toOption]
  · intro t ht
    simp [build_context, ht, Except.toOption]

/-- Witness for C5: a concrete build in which the weather fetch throws
while the farm and trend fetches succeed. -/
theorem context_partial_failure_witness :
    (build_context (some "f1") .health_check
        (Except.ok ⟨"f1", "wheat"⟩) (Except.error "sat down")
        (Except.error "weather down") (Except.error "fc down")
        (Except.ok ⟨[700, 720], "rising"⟩)).weather = none ∧
    (build_context (some "f1") .health_check
        (Except.ok ⟨"f1", "wheat"⟩) (Except.error "sat down")
        (Except.error "weather down") (Except.error "fc down")
        (Except.ok ⟨[700, 720], "rising"⟩)).farm = some ⟨"f1", "wheat"⟩ ∧
    (build_context (some "f1") .health_check
        (Except.ok ⟨"f1", "wheat"⟩) (Except.error "sat down")
        (Except.error "weather down") (Except.error "fc down")
        (Except.ok ⟨[700, 720], "rising"⟩)).trend =
      some ⟨[700, 720], "rising"⟩ :=
  ⟨(context_partial_failure (some "f1") .health_check
      (Except.ok ⟨"f1", "wheat"⟩) (Except.error "sat down") "weather down"
      (Except.error "fc down") (Except.ok ⟨[700, 720], "rising"⟩)).1,
   (context_partial_failure (some "f1") .health_check
      (Except.ok ⟨"f1", "wheat"⟩) (Except.error "sat down") "weather down"
      (Except.error "fc down") (Except.ok ⟨[700, 720], "rising"⟩)).2.1
      _ rfl,
   (context_partial_failure (some "f1") .health_check
      (Except.ok ⟨"f1", "wheat"⟩) (Except.error "sat down") "weather down"
      (Except.error "fc down") (Except.ok ⟨[700, 720], "rising"⟩)).2.2.1
      _ rfl⟩

/-! ## Persistence claims -/

/-- C2: every ChatMessage reaching the persisted state has a non-null
intent and confidence — an invariant preserved by a full turn through
`process_turn`, for every turn including those where the LLM path fails
(`llmRes = none`) and the fallback produces the response. -/
theorem persisted_turn_invariant (st : ChatStore) (uid : String)
    (fid : Option String) (msg : String) (farmRes : Except String FarmInfo)
    (satRes : Except String SatInfo) (weatherRes : Except String WeatherInfo)
    (forecastRes : Except String (List WeatherInfo))
    (trendRes : Except String TrendInfo)
    (llmRes : Option (String × List String)) :
    (∀ m ∈ st.msgs, m.intent.isSome ∧ m.confidence.isSome) →
      ∀ m ∈ (process_turn st uid fid msg farmRes satRes weatherRes
          forecastRes trendRes llmRes).msgs,
        m.intent.isSome ∧ m.confidence.isSome := by
  intro h m hm
  rcases hdi : detect_intent msg with ⟨i, c⟩
  cases llmRes with
  | none =>
    simp only [process_turn, save_chat, hdi, List.mem_append,
      List.mem_singleton] at hm
    rcases hm with hm | hm
    · exact h m hm
    · subst hm
      exact ⟨rfl, rfl⟩
  | some r =>
    simp only [process_turn, save_chat, hdi, List.mem_append,
      List.mem_singleton] at hm
    rcases hm with hm | hm
    · exact h m hm
    · subst hm
      exact ⟨rfl, rfl⟩

/-- Witness for C2: a full turn on the empty store with every
collaborator failing and the LLM path failing still persists a message
with non-null intent and confidence. -/
theorem persisted_turn_invariant_witness :
    ((process_turn ChatStore.empty "u1" (some "f1") "hello"
        (Except.error "down") (Except.error "down") (Except.error "down")
        (Except.error "down") (Except.error "down") none).msgs.all
      (fun m => m.intent.isSome && m.confidence.isSome)) = true := by
  rw [List.all_eq_true]
  intro m hm
  have h := persisted_turn_invariant ChatStore.empty "u1" (some "f1")
    "hello" (Except.error "down") (Except.error "down")
    (Except.error "down") (Except.error "down") (Except.error "down") none
    (by intro m hm; cases hm) m hm
  simp [h.1, h.2]

/-- C6: `history(farm_id, limit)` returns at most `limit` messages, the
most recent ones for that farm newest-first; an empty sequence (not an
error) when no history exists; and after 3 saved turns for a farm,
`history(farm_id, 2)` returns exactly the 2 newest entries,
newest-first. -/
theorem chat_history_spec (st : ChatStore) (fid : String) (lim : Nat) :
    (get_chat_history st fid lim).length ≤ lim ∧
    (st.msgs.filter (fun m => m.farm_id == some fid) = [] →
      get_chat_history st fid lim = []) ∧
    ((get_chat_history threeTurns "f1" 2).map (fun m => m.message) =
      ["three", "two"] ∧
      (get_chat_history threeTurns "f1" 2).map (fun m => m.timestamp) =
        [2, 1]) := by
  refine ⟨?_, ?_, by decide, by decide⟩
  · simp only [get_chat_history, List.length_take]
    omega
  · intro hfil
    simp [get_chat_history, hfil]

/-- Witness for C6: an empty store yields an empty history, not an
error. -/
theorem chat_history_spec_witness :
    get_chat_history ChatStore.empty "nofarm" 3 = [] :=
  (chat_history_spec ChatStore.empty "nofarm" 3).2.1 rfl

/-! ## Frontend claims -/

/-- C9: `handleSend` returns with the component state unchanged — no
message appended, input not cleared — and no network request whenever
the effective message content is empty or a previous request is still in
flight. -/
theorem handleSend_noop (now : Nat) (arg : Option String)
    (st : ChatPageState) :
    effectiveContent arg st = "" ∨ st.isLoading = true →
      handleSend now arg st = (st, none) := by
  intro h
  unfold handleSend
  dsimp only
  rw [if_pos h]

/-- Witness for C9: with a request in flight (`isLoading = true`) the
state is unchanged and no request is issued; likewise for an empty
argument over an all-whitespace input field. -/
theorem handleSend_noop_witness :
    (({ messages := [], input := "hi", isLoading := true,
          selectedLanguage := "en" } : ChatPageState).isLoading = true ∧
      handleSend 5 none
          { messages := [], input := "hi", isLoading := true,
            selectedLanguage := "en" } =
        ({ messages := [], input := "hi", isLoading := true,
           selectedLanguage := "en" }, none)) ∧
    (effectiveContent (some "")
        { messages := [], input := "   ", isLoading := false,
          selectedLanguage := "en" } = "" ∧
      handleSend 7 (some "")
          { messages := [], input := "   ", isLoading := false,
            selectedLanguage := "en" } =
        ({ messages := [], input := "   ", isLoading := false,
           selectedLanguage := "en" }, none)) :=
  ⟨⟨rfl, handleSend_noop 5 none _ (Or.inr rfl)⟩,
   ⟨by decide, handleSend_noop 7 (some "") _ (Or.inl (by decide))⟩⟩

theorem ciContains_empty_needle (s : String) : ciContains s "" = true := by
  unfold ciContains
  rw [show lowerL "".data = [] from rfl]
  exact containsSub_nil _

/-- C10: `filteredFarms` keeps exactly the farms whose name or crop_type
contains the search query as a case-insensitive substring, keeps every
farm under the empty query, and never reorders (the result is a sublist
of the input). -/
theorem filteredFarms_spec (farms : List FarmRecord) (q : String) :
    (∀ f, f ∈ filteredFarms farms q ↔
      f ∈ farms ∧
        (ciContains f.name q || ciContains f.crop_type q) = true) ∧
    filteredFarms farms "" = farms ∧
    List.Sublist (filteredFarms farms q) farms := by
  refine ⟨?_, ?_, ?_⟩
  · intro f
    simp [filteredFarms, List.mem_filter]
  · unfold filteredFarms
    rw [List.filter_eq_self]
    intro a _
    simp [ciContains_empty_needle]
  · exact List.filter_sublist farms

/-- Witness for C10 on concrete data: the empty query keeps both sample
farms and the query "rice" keeps exactly the rice farm. -/
theorem filteredFarms_spec_witness :
    filteredFarms sampleFarms "" = sampleFarms ∧
      (filteredFarms sampleFarms "rice").map (fun f => f.name) =
        ["River Rice Plantation"] :=
  ⟨(filteredFarms_spec sampleFarms "").2.1, by decide⟩

end AgroVision
